import Mathlib

/-
Verification development for the FirstRing voice-agent pipeline.

The repository is a Node.js service bridging Twilio media streams to
speech services.  The definitions below are a shallow embedding of its
pure computational core: the mu-law codec helpers, the outbound audio
framing and pacing queue, the TTS primary/fallback orchestration, the
loose JSON extraction used for lead records, and the per-session
websocket message handling.  Buffers are modelled as lists of byte
values (Nat, each < 256 where produced), PCM samples as Int, and the
JavaScript runtime's JSON.parse as an executable parser over lists of
characters.
-/

set_option maxRecDepth 100000

namespace FirstRing

/-! ### JavaScript bitwise helpers -/

/-- Models the JavaScript expression written tilde v and-masked with 0xFF for a
nonnegative value v (complement of the low byte). -/
def jsNotByte (v : Nat) : Nat := 255 - v % 256

/-- The exponent-search loop shared by both mu-law encoders in the source:
starting from exponent 7 and mask 0x4000, decrement the exponent and halve the
mask while the masked bit of the magnitude is clear and the exponent is
positive. -/
def expLoop (s : Nat) : Nat → Nat → Nat
  | 0, _ => 0
  | e + 1, mask => if Nat.land s mask = 0 then expLoop s e (mask / 2) else e + 1

/-! ### Codec layer -/

/-- Embedding of encodeLinearToMuLaw (src/unnamed/part_000 lines 74-81, identical
copies in part_001 and part_002): sign bit from the sample's sign, 3-bit exponent
from the magnitude's highest set bit, 4-bit mantissa, final bitwise inversion of
the low byte.  No bias is added and no clipping is performed inside the
function; its callers clamp samples to the 16-bit range before calling. -/
def encodeLinearToMuLaw (sample : Int) : Nat :=
  let sign : Nat := if sample < 0 then 0x80 else 0
  let s : Nat := sample.natAbs
  let exponent : Nat := expLoop s 7 0x4000
  let mantissa : Nat := Nat.land (s >>> (exponent + 3)) 0x0F
  jsNotByte (Nat.lor (Nat.lor sign (exponent <<< 4)) mantissa)

/-- The clipping step of pcm16ToUlaw (src/server.js line 105): CLIP = 32635. -/
def clip32635 (s : Int) : Int :=
  if s > 32635 then 32635 else if s < -32635 then -32635 else s

/-- Per-sample body of pcm16ToUlaw (src/server.js lines 104-112): clip to
plus/minus 32635, take the sign, add BIAS = 0x84 to the magnitude, find the
exponent, then extract the mantissa; the shift distance is 4 when the exponent
is 0 and exponent + 3 otherwise. -/
def pcm16ToUlawSample (x : Int) : Nat :=
  let s := clip32635 x
  let sign : Nat := if s < 0 then 0x80 else 0
  let m : Nat := s.natAbs + 0x84
  let exp : Nat := expLoop m 7 0x4000
  let mant : Nat := Nat.land (m >>> (if exp = 0 then 4 else exp + 3)) 0x0F
  jsNotByte (Nat.lor (Nat.lor sign (exp <<< 4)) mant)

/-- pcm16ToUlaw (src/server.js lines 100-115) over an already-decoded list of
16-bit samples: the byte pairs read with readInt16LE are modelled as the Int
samples themselves. -/
def pcm16ToUlaw (samples : List Int) : List Nat := samples.map pcm16ToUlawSample

/-! ### Frame scheduler -/

/-- ULawSilence (src/server.js line 82): the mu-law silence byte. -/
def ULawSilence : Nat := 0xFF

/-- FRAME_BYTES (src/server.js line 83): 20 ms of 8 kHz mu-law mono audio. -/
def FRAME_BYTES : Nat := 160

/-- buildSilence (src/server.js line 85). -/
def buildSilence (frames : Nat) : List Nat :=
  List.replicate (FRAME_BYTES * frames) ULawSilence

/-- padToFrame (src/server.js lines 87-90): pad with the silence byte up to the
next multiple of the frame size, or return the buffer unchanged when already
aligned. -/
def padToFrame (buf : List Nat) : List Nat :=
  if buf.length % FRAME_BYTES = 0 then buf
  else buf ++ List.replicate (FRAME_BYTES - buf.length % FRAME_BYTES) ULawSilence

/-- The 160-byte slicing loop shared by toFrames (src/server.js line 95) and
wsSendMedia (chunkSize = 160, src/unnamed/part_002 lines 131-133): subarray
slices taken at offsets 0, 160, 320, ...  The fuel argument only bounds the
recursion; one slice is produced per loop iteration. -/
def chunkGo : Nat → List Nat → List (List Nat)
  | _, [] => []
  | 0, _ :: _ => []
  | fuel + 1, l => l.take 160 :: chunkGo fuel (l.drop 160)

/-- Slicing a buffer into consecutive 160-byte chunks (the final chunk may be
shorter when the length is not a multiple of 160). -/
def chunk160 (l : List Nat) : List (List Nat) := chunkGo l.length l

/-- toFrames (src/server.js lines 92-97): pad, then slice into 160-byte frames. -/
def toFrames (buf : List Nat) : List (List Nat) := chunk160 (padToFrame buf)

/-- The sequence of media-event payloads produced by wsSendMedia
(src/unnamed/part_002 lines 129-143, same slicing in part_000 and part_001):
nothing is sent without a streamSid; otherwise each consecutive slice of at
most 160 bytes is base64-encoded and sent as one media event (payloads are
modelled pre-encoding, i.e. as the decoded bytes).  The socket is assumed open
for the duration of the loop. -/
def wsSendMediaPayloads (streamSid : String) (mulawBytes : List Nat) : List (List Nat) :=
  if streamSid = "" then [] else chunk160 mulawBytes

/-- The mutable state captured by startAudioSender (src/server.js lines
157-177): the frame queue, the draining flag and the primed flag. -/
structure SenderState where
  q : List (List Nat)
  sending : Bool
  primed : Bool

/-- The closure state right after startAudioSender returns. -/
def initSender : SenderState := { q := [], sending := false, primed := false }

/-- enqueue (src/server.js lines 168-174): on the first call (primed still
false) push the frames of three silence frames ahead of the real audio, then
push the buffer's frames and mark the pacing loop as active.  The tick loop
that later drains the queue is a separate transition and is not part of this
step. -/
def enqueue (st : SenderState) (buf : List Nat) : SenderState :=
  let st1 := if st.primed then st
    else { st with primed := true, q := st.q ++ toFrames (buildSilence 3) }
  { st1 with q := st1.q ++ toFrames buf, sending := true }

/-- clear (src/server.js line 175): discard the queue and reset the primed
flag; the sending flag is not touched. -/
def clear (st : SenderState) : SenderState := { st with q := [], primed := false }

/-! ### Speech synthesis orchestrator -/

/-- Outcome of the primary (ElevenLabs) synthesis request: axios rejects on
request failure or non-2xx status; a 2xx response is either audio bytes or an
error body whose content type includes application/json. -/
inductive PrimaryOutcome where
  | requestError
  | jsonContentType
  | ok (audio : List Nat)

/-- Outcome of the secondary (OpenAI) synthesis request, delivering wideband
PCM16 samples on success. -/
inductive SecondaryOutcome where
  | requestError
  | ok (pcm16 : List Int)

/-- Which provider credentials are configured. -/
structure TtsEnv where
  hasElevenKey : Bool
  hasVoiceId : Bool
  hasOpenAIKey : Bool

/-- The clamp applied in ttsOpenAI before encoding:
Math.max(-32768, Math.min(32767, sample)). -/
def jsClampInt16 (x : Int) : Int := max (-32768) (min 32767 x)

/-- ttsOpenAI (src/unnamed/part_002 lines 78-98): with no key, an empty buffer;
on request failure, an empty buffer; on success, every third PCM sample is
clamped and mu-law encoded (the output array length is the floor of the sample
count divided by three). -/
def ttsOpenAI (hasOpenAIKey : Bool) (outcome : SecondaryOutcome) : List Nat :=
  if hasOpenAIKey = false then [] else
  match outcome with
  | .requestError => []
  | .ok pcm16 =>
      (List.range (pcm16.length / 3)).map fun j =>
        encodeLinearToMuLaw (jsClampInt16 (pcm16.getD (3 * j) 0))

/-- ttsSynthesize (src/unnamed/part_002 lines 101-126).  The second component
counts how many times the secondary provider path (ttsOpenAI) is invoked:
immediately when ElevenLabs is not configured, and exactly once on a request
error or on a JSON content-type response; a successful audio response is
returned without invoking the fallback. -/
def ttsSynthesize (env : TtsEnv) (prim : PrimaryOutcome) (sec : SecondaryOutcome) :
    List Nat × Nat :=
  if env.hasElevenKey = false ∨ env.hasVoiceId = false then
    (ttsOpenAI env.hasOpenAIKey sec, 1)
  else
    match prim with
    | .ok audio => (audio, 0)
    | .jsonContentType => (ttsOpenAI env.hasOpenAIKey sec, 1)
    | .requestError => (ttsOpenAI env.hasOpenAIKey sec, 1)

/-- Primary-failure predicate of the fallback scenario: request failure,
non-2xx status (both surface as requestError) or a JSON content type. -/
def primaryFails : PrimaryOutcome → Bool
  | .ok _ => false
  | _ => true

/-- Secondary-failure predicate: no OpenAI key, or its request fails. -/
def secondaryFails (hasOpenAIKey : Bool) (sec : SecondaryOutcome) : Bool :=
  !hasOpenAIKey || (match sec with | .requestError => true | .ok _ => false)

/-- speak (src/unnamed/part_000 lines 227-230): the number of media events the
helper causes; wsSendMedia is only reached when the synthesized byte count is
non-zero (the bytes-length truthiness guard). -/
def speakFramesSent (streamSid : String) (bytes : List Nat) : Nat :=
  if bytes.length ≠ 0 then (wsSendMediaPayloads streamSid bytes).length else 0

/-! ### JSON values and a model of the JavaScript JSON.parse -/

/-- Left-brace character. -/
def lbraceChar : Char := Char.ofNat 123

/-- Right-brace character. -/
def rbraceChar : Char := Char.ofNat 125

/-- Left-bracket character. -/
def lbrackChar : Char := Char.ofNat 91

/-- Right-bracket character. -/
def rbrackChar : Char := Char.ofNat 93

/-- Double-quote character. -/
def quoteChar : Char := Char.ofNat 34

/-- Backslash character. -/
def backslashChar : Char := Char.ofNat 92

/-- JSON values.  Numbers keep their source lexeme, which is all the embedded
code ever inspects. -/
inductive Json where
  | null
  | bool (b : Bool)
  | num (raw : String)
  | str (s : String)
  | arr (elems : List Json)
  | obj (fields : List (String × Json))

/-- JSON insignificant whitespace: space, tab, line feed, carriage return. -/
def isJsonWs (c : Char) : Bool :=
  c = ' ' || c.toNat = 9 || c.toNat = 10 || c.toNat = 13

/-- Drop leading JSON whitespace. -/
def skipWs (cs : List Char) : List Char := cs.dropWhile isJsonWs

/-- Value of one hexadecimal digit. -/
def hexVal (c : Char) : Option Nat :=
  if c.isDigit then some (c.toNat - 48)
  else if 97 ≤ c.toNat ∧ c.toNat ≤ 102 then some (c.toNat - 87)
  else if 65 ≤ c.toNat ∧ c.toNat ≤ 70 then some (c.toNat - 55)
  else none

/-- Single-character JSON string escapes. -/
def escChar (c : Char) : Option Char :=
  if c = quoteChar then some quoteChar
  else if c = backslashChar then some backslashChar
  else if c = '/' then some '/'
  else if c = 'b' then some (Char.ofNat 8)
  else if c = 'f' then some (Char.ofNat 12)
  else if c = 'n' then some (Char.ofNat 10)
  else if c = 'r' then some (Char.ofNat 13)
  else if c = 't' then some (Char.ofNat 9)
  else none

/-- Body of a JSON string literal, the opening quote already consumed: stops at
the closing quote, resolves escapes, and rejects unescaped control characters
or malformed escapes, as JSON.parse does. -/
def parseStringGo : Nat → List Char → List Char → Option (String × List Char)
  | 0, _, _ => none
  | _ + 1, [], _ => none
  | fuel + 1, c :: rest, acc =>
    if c = quoteChar then some (String.mk acc.reverse, rest)
    else if c = backslashChar then
      match rest with
      | [] => none
      | e :: rest2 =>
        if e = 'u' then
          match rest2 with
          | h1 :: h2 :: h3 :: h4 :: rest3 =>
            match hexVal h1, hexVal h2, hexVal h3, hexVal h4 with
            | some a, some b, some c2, some d =>
                parseStringGo fuel rest3 (Char.ofNat (((a * 16 + b) * 16 + c2) * 16 + d) :: acc)
            | _, _, _, _ => none
          | _ => none
        else
          match escChar e with
          | some ch => parseStringGo fuel rest2 (ch :: acc)
          | none => none
    else if c.toNat < 32 then none
    else parseStringGo fuel rest (c :: acc)

/-- Optional fraction part of a JSON number (dot followed by digits). -/
def parseFrac (cs : List Char) : Option (List Char × List Char) :=
  match cs with
  | c :: rest =>
    if c = '.' then
      let fs := rest.takeWhile Char.isDigit
      if fs = [] then none else some (c :: fs, rest.dropWhile Char.isDigit)
    else some ([], cs)
  | [] => some ([], cs)

/-- Optional exponent part of a JSON number. -/
def parseExp (cs : List Char) : Option (List Char × List Char) :=
  match cs with
  | c :: rest =>
    if c = 'e' ∨ c = 'E' then
      let sr : List Char × List Char :=
        match rest with
        | s :: r2 => if s = '+' ∨ s = '-' then ([s], r2) else ([], rest)
        | [] => ([], rest)
      let ds := sr.2.takeWhile Char.isDigit
      if ds = [] then none
      else some (c :: (sr.1 ++ ds), sr.2.dropWhile Char.isDigit)
    else some ([], cs)
  | [] => some ([], cs)

/-- A JSON number token: optional minus, an integer part with no leading zero,
optional fraction, optional exponent.  The lexeme is preserved. -/
def parseNumber (cs : List Char) : Option (String × List Char) :=
  let sgn : List Char × List Char :=
    match cs with
    | c :: rest => if c = '-' then ([c], rest) else ([], cs)
    | [] => ([], cs)
  let ds := sgn.2.takeWhile Char.isDigit
  let cs2 := sgn.2.dropWhile Char.isDigit
  if ds = [] then none
  else if 1 < ds.length ∧ ds.headD ' ' = '0' then none
  else
    match parseFrac cs2 with
    | none => none
    | some (fr, cs3) =>
      match parseExp cs3 with
      | none => none
      | some (ex, cs4) => some (String.mk (sgn.1 ++ ds ++ fr ++ ex), cs4)

/-- Parser modes: a single value, the members of an object after its opening
brace, or the elements of an array after its opening bracket. -/
inductive PMode where
  | val
  | members (acc : List (String × Json))
  | elems (acc : List Json)

/-- Recursive-descent core of the JSON.parse model.  The fuel only bounds the
call depth (two units per input character always suffice). -/
def parseP : Nat → PMode → List Char → Option (Json × List Char)
  | 0, _, _ => none
  | fuel + 1, PMode.val, cs =>
    match skipWs cs with
    | [] => none
    | c :: rest =>
      if c = lbraceChar then parseP fuel (PMode.members []) rest
      else if c = lbrackChar then parseP fuel (PMode.elems []) rest
      else if c = quoteChar then
        match parseStringGo rest.length rest [] with
        | some (s, r) => some (Json.str s, r)
        | none => none
      else
        match c :: rest with
        | 'n' :: 'u' :: 'l' :: 'l' :: r => some (Json.null, r)
        | 't' :: 'r' :: 'u' :: 'e' :: r => some (Json.bool true, r)
        | 'f' :: 'a' :: 'l' :: 's' :: 'e' :: r => some (Json.bool false, r)
        | cs2 =>
          match parseNumber cs2 with
          | some (raw, r) => some (Json.num raw, r)
          | none => none
  | fuel + 1, PMode.members acc, cs =>
    match skipWs cs with
    | [] => none
    | c :: rest =>
      if c = rbraceChar then
        match acc with
        | [] => some (Json.obj [], rest)
        | _ :: _ => none
      else if c = quoteChar then
        match parseStringGo rest.length rest [] with
        | none => none
        | some (k, r1) =>
          match skipWs r1 with
          | [] => none
          | c2 :: r2 =>
            if c2 = ':' then
              match parseP fuel PMode.val r2 with
              | none => none
              | some (v, r3) =>
                match skipWs r3 with
                | [] => none
                | c3 :: r4 =>
                  if c3 = ',' then parseP fuel (PMode.members ((k, v) :: acc)) r4
                  else if c3 = rbraceChar then some (Json.obj ((k, v) :: acc).reverse, r4)
                  else none
            else none
      else none
  | fuel + 1, PMode.elems acc, cs =>
    match skipWs cs with
    | [] => none
    | c :: rest =>
      if c = rbrackChar then
        match acc with
        | [] => some (Json.arr [], rest)
        | _ :: _ => none
      else
        match parseP fuel PMode.val (c :: rest) with
        | none => none
        | some (v, r1) =>
          match skipWs r1 with
          | [] => none
          | c2 :: r2 =>
            if c2 = ',' then parseP fuel (PMode.elems (v :: acc)) r2
            else if c2 = rbrackChar then some (Json.arr (v :: acc).reverse, r2)
            else none

/-- Model of JSON.parse: parse one value and require only whitespace after it;
any syntax error is a thrown exception, modelled as none. -/
def jsonParse (text : String) : Option Json :=
  match parseP (2 * text.length + 2) PMode.val text.toList with
  | some (j, rest) => if skipWs rest = [] then some j else none
  | none => none

/-! ### Loose JSON extraction and llmExtract -/

/-- First index of a character in a list, or none. -/
def firstIdxGo (c : Char) : List Char → Nat → Option Nat
  | [], _ => none
  | x :: xs, i => if x = c then some i else firstIdxGo c xs (i + 1)

/-- Last index of a character in a list (JS lastIndexOf), or none. -/
def lastIdxOf (cs : List Char) (c : Char) : Option Nat :=
  match firstIdxGo c cs.reverse 0 with
  | some i => some (cs.length - 1 - i)
  | none => none

/-- parseJsonLoose (src/unnamed/part_002 lines 169-174): an empty (falsy) text
gives null; otherwise locate the first left brace and last right brace, give
null when either is missing or out of order, and otherwise JSON.parse the
enclosed slice, with a parse exception caught as null. -/
def parseJsonLoose (text : String) : Option Json :=
  if text = "" then none
  else
    let cs := text.toList
    match firstIdxGo lbraceChar cs 0, lastIdxOf cs rbraceChar with
    | some s, some e =>
      if e < s then none
      else jsonParse (String.mk ((cs.drop s).take (e + 1 - s)))
    | _, _ => none

/-- Model of the JavaScript string trim used on the model reply. -/
def jsTrim (s : String) : String :=
  String.mk (((s.toList.dropWhile isJsonWs).reverse.dropWhile isJsonWs).reverse)

/-- Model of the JavaScript slice(0, n) on a string. -/
def jsSlice (s : String) (n : Nat) : String := String.mk (s.toList.take n)

/-- Outcome of the extraction request to the reasoning service: a request or
HTTP failure, or a response whose message content is absent or a string. -/
inductive LlmOutcome where
  | requestError
  | reply (content : Option String)

/-- The default-populated record of llmExtract (src/unnamed/part_002 lines 186
and 189): enumerated fields empty, urgency this_week, call_summary the raw
transcript truncated to 800 characters. -/
def defaultLead (text : String) : Json :=
  Json.obj [(("caller_name"), Json.str ("")), (("suburb"), Json.str ("")),
    (("job_type"), Json.str ("")), (("urgency"), Json.str ("this_week")),
    (("preferred_time"), Json.str ("")), (("call_summary"), Json.str (jsSlice text 800))]

/-- The raw text handed to parseJsonLoose: the trimmed message content, with a
missing or empty (falsy) content replaced by the two-character empty-object
text. -/
def rawContent (content : Option String) : String :=
  match content with
  | none => String.mk [lbraceChar, rbraceChar]
  | some c => if jsTrim c = "" then String.mk [lbraceChar, rbraceChar] else jsTrim c

/-- llmExtract (src/unnamed/part_002 lines 175-191): on a service error the
default record; otherwise the loose-parsed JSON object if one was found (the
JavaScript or-else applies because null is falsy and any parsed object is
truthy), and the default record when parsing failed. -/
def llmExtract (text : String) (outcome : LlmOutcome) : Json :=
  match outcome with
  | .requestError => defaultLead text
  | .reply content => (parseJsonLoose (rawContent content)).getD (defaultLead text)

/-! ### Session websocket message handling -/

/-- Property access on a parsed JSON value: defined only on objects, as the
optional-chaining accesses in the handler are on parsed envelopes. -/
def Json.getField (j : Json) (k : String) : Option Json :=
  match j with
  | Json.obj fields => fields.lookup k
  | _ => none

/-- Chained optional access. -/
def optField (j : Option Json) (k : String) : Option Json :=
  match j with
  | some v => Json.getField v k
  | none => none

/-- The or-empty-string coercion applied to envelope fields. -/
def jsOrEmptyString : Option Json → String
  | some (Json.str s) => s
  | _ => ""

/-- Strict string comparison of the envelope's event tag. -/
def isEvent (j : Json) (name : String) : Bool :=
  match Json.getField j ("event") with
  | some (Json.str s) => s = name
  | _ => false

/-- Per-connection session state (src/unnamed/part_002 lines 199-200), plus the
observable effects on the Deepgram socket: payloads forwarded and whether close
was requested. -/
structure SessionState where
  caller : String
  streamSid : String
  fullTranscript : List String
  mediaCount : Nat
  dgSent : List String
  dgClosed : Bool

/-- Session state at connection open. -/
def initialSession : SessionState :=
  { caller := "", streamSid := "", fullTranscript := [], mediaCount := 0,
    dgSent := [], dgClosed := false }

/-- One parsed inbound envelope (src/unnamed/part_002 lines 226-258): the three
independent event checks of the handler body.  A start event records caller and
streamSid; a media event counts it and forwards the base64 payload to Deepgram
when that socket is open; a stop event triggers extraction and dispatch
(external effects) and closes the Deepgram socket. -/
def handleEnvelope (dgOpen : Bool) (st : SessionState) (j : Json) : SessionState :=
  let st1 := if isEvent j ("start") then
      { st with
        caller := jsOrEmptyString
          (optField (optField (Json.getField j ("start")) ("customParameters")) ("caller")),
        streamSid := jsOrEmptyString (optField (Json.getField j ("start")) ("streamSid")) }
    else st
  let st2 := if isEvent j ("media") then
      { st1 with
        mediaCount := st1.mediaCount + 1,
        dgSent := if dgOpen then
            st1.dgSent ++ [jsOrEmptyString (optField (Json.getField j ("media")) ("payload"))]
          else st1.dgSent }
    else st1
  if isEvent j ("stop") then { st2 with dgClosed := true } else st2

/-- One raw inbound websocket message (src/unnamed/part_002 lines 224-262): the
whole body runs inside a try whose catch only logs, so a JSON.parse failure
leaves the session untouched. -/
def handleRaw (dgOpen : Bool) (st : SessionState) (raw : String) : SessionState :=
  match jsonParse raw with
  | none => st
  | some j => handleEnvelope dgOpen st j

/-- Messages are handled strictly in arrival order. -/
def processMessages (dgOpen : Bool) (st : SessionState) (msgs : List String) : SessionState :=
  msgs.foldl (handleRaw dgOpen) st

/-! ### Container stripping (spec-modelled) -/

/-- The four RIFF magic bytes. -/
def riffMagic : List Nat := [0x52, 0x49, 0x46, 0x46]

/-- The four WAVE form-type bytes. -/
def waveMagic : List Nat := [0x57, 0x41, 0x56, 0x45]

/-- The four data chunk-id bytes. -/
def dataMagic : List Nat := [0x64, 0x61, 0x74, 0x61]

/-- Little-endian 32-bit value of the first four bytes of a list. -/
def le32 (bs : List Nat) : Nat :=
  bs.getD 0 0 + 256 * bs.getD 1 0 + 65536 * bs.getD 2 0 + 16777216 * bs.getD 3 0

/-- Whether a buffer starts with the uncompressed-audio container signature:
RIFF at offset 0 and WAVE at offset 8 (the intervening 4 size bytes are not
checked). -/
def hasRiffHeader (b : List Nat) : Bool :=
  decide (b.take 4 = riffMagic) && decide (((b.drop 8).take 4) = waveMagic)

/-- Walk the container's chunk list: each chunk is a 4-byte id, a 4-byte
little-endian size and that many payload bytes.  The data chunk's payload is
returned exactly; a truncated header, an overlong declared size, or running out
of bytes falls back to the original buffer. -/
def findDataChunk (orig : List Nat) : Nat → List Nat → List Nat
  | 0, _ => orig
  | fuel + 1, rest =>
    if rest.length < 8 then orig
    else
      let cid := rest.take 4
      let size := le32 ((rest.drop 4).take 4)
      let body := rest.drop 8
      if cid = dataMagic then
        if size ≤ body.length then body.take size else orig
      else findDataChunk orig fuel (body.drop size)

/-- Modelled from the spec: stripContainer (spec section 4.1) has no
implementation under src/ (only the spec describes it), so it is modelled from
the spec's words: detect the standard uncompressed-audio container signature
(RIFF/WAVE) at the start of the buffer; if present, walk the chunk headers to
the data chunk and return exactly its payload sub-range; if the signature is
absent, or the container is truncated or malformed, return the input
unchanged. -/
def stripContainer (b : List Nat) : List Nat :=
  if hasRiffHeader b then findDataChunk b b.length (b.drop 12) else b

/-- An adversarial container whose data payload is itself a complete container:
an outer RIFF/WAVE file whose 24-byte data chunk holds an inner RIFF/WAVE file
whose own data chunk holds four bytes. -/
def innerWav : List Nat :=
  [0x52, 0x49, 0x46, 0x46, 0, 0, 0, 0, 0x57, 0x41, 0x56, 0x45,
   0x64, 0x61, 0x74, 0x61, 4, 0, 0, 0, 9, 9, 9, 9]

/-- The outer container wrapping innerWav as its data payload. -/
def nestedWavExample : List Nat :=
  [0x52, 0x49, 0x46, 0x46, 0, 0, 0, 0, 0x57, 0x41, 0x56, 0x45,
   0x64, 0x61, 0x74, 0x61, 24, 0, 0, 0] ++ innerWav

/-! ### Helper lemmas about the 160-byte slicing loop -/

/-- Concatenating the slices gives back the input buffer. -/
theorem chunkGo_join (fuel : Nat) :
    ∀ l : List Nat, l.length ≤ fuel → (chunkGo fuel l).flatten = l := by
  induction fuel with
  | zero =>
    intro l h
    have hl : l = [] := List.eq_nil_of_length_eq_zero (Nat.le_zero.mp h)
    subst hl
    simp [chunkGo]
  | succ n ih =>
    intro l h
    cases l with
    | nil => simp [chunkGo]
    | cons c cs =>
      have h2 : ((c :: cs).drop 160).length ≤ n := by
        simp only [List.length_drop, List.length_cons] at *
        omega
      simp only [chunkGo, List.flatten_cons]
      rw [ih _ h2, List.take_append_drop]

/-- The number of slices is the ceiling of the length divided by 160. -/
theorem chunkGo_length (fuel : Nat) :
    ∀ l : List Nat, l.length ≤ fuel → (chunkGo fuel l).length = (l.length + 159) / 160 := by
  induction fuel with
  | zero =>
    intro l h
    have hl : l = [] := List.eq_nil_of_length_eq_zero (Nat.le_zero.mp h)
    subst hl
    simp [chunkGo]
  | succ n ih =>
    intro l h
    cases l with
    | nil => simp [chunkGo]
    | cons c cs =>
      have h2 : ((c :: cs).drop 160).length ≤ n := by
        simp only [List.length_drop, List.length_cons] at *
        omega
      have ih2 := ih _ h2
      simp only [chunkGo, List.length_cons, List.length_drop] at ih2 ⊢
      omega

/-- When the input length is a multiple of 160, every slice has length 160. -/
theorem chunkGo_frame_lengths (fuel : Nat) :
    ∀ l : List Nat, l.length ≤ fuel → l.length % 160 = 0 →
      ∀ f ∈ chunkGo fuel l, f.length = 160 := by
  induction fuel with
  | zero =>
    intro l h _ f hf
    have hl : l = [] := List.eq_nil_of_length_eq_zero (Nat.le_zero.mp h)
    subst hl
    simp [chunkGo] at hf
  | succ n ih =>
    intro l h hm f hf
    cases l with
    | nil => simp [chunkGo] at hf
    | cons c cs =>
      simp only [chunkGo] at hf
      rcases List.mem_cons.mp hf with h1 | h1
      · subst h1
        simp only [List.length_take, List.length_cons]
        simp only [List.length_cons] at hm
        omega
      · have hle : ((c :: cs).drop 160).length ≤ n := by
          simp only [List.length_drop, List.length_cons] at *
          omega
        have hm2 : ((c :: cs).drop 160).length % 160 = 0 := by
          simp only [List.length_drop, List.length_cons] at *
          omega
        exact ih _ hle hm2 f h1

/-- When the input length is not a multiple of 160, some slice is exactly the
remainder long. -/
theorem chunkGo_short_trailing (fuel : Nat) :
    ∀ l : List Nat, l.length ≤ fuel → l.length % 160 ≠ 0 →
      ∃ f ∈ chunkGo fuel l, f.length = l.length % 160 := by
  induction fuel with
  | zero =>
    intro l h hm
    have hl : l = [] := List.eq_nil_of_length_eq_zero (Nat.le_zero.mp h)
    subst hl
    simp at hm
  | succ n ih =>
    intro l h hm
    cases l with
    | nil => simp at hm
    | cons c cs =>
      by_cases hlen : (c :: cs).length ≤ 160
      · refine ⟨c :: cs, ?_, ?_⟩
        · simp only [chunkGo, List.mem_cons]
          left
          rw [List.take_of_length_le hlen]
        · simp only [List.length_cons] at *
          omega
      · have hle : ((c :: cs).drop 160).length ≤ n := by
          simp only [List.length_drop, List.length_cons] at *
          omega
        have hm2 : ((c :: cs).drop 160).length % 160 ≠ 0 := by
          simp only [List.length_drop, List.length_cons] at *
          omega
        obtain ⟨f, hf, hfl⟩ := ih _ hle hm2
        refine ⟨f, ?_, ?_⟩
        · simp only [chunkGo, List.mem_cons]
          right
          exact hf
        · simp only [List.length_drop, List.length_cons] at *
          omega

/-- The padded buffer's length is the smallest multiple of 160 at least the
input's length. -/
theorem padToFrame_length (b : List Nat) :
    (padToFrame b).length = ((b.length + 159) / 160) * 160 := by
  simp only [padToFrame, FRAME_BYTES]
  split
  · omega
  · simp only [List.length_append, List.length_replicate]
    omega

/-- A buffer with no container signature is returned unchanged. -/
theorem stripContainer_no_header (x : List Nat) (h : hasRiffHeader x = false) :
    stripContainer x = x := by
  simp [stripContainer, h]

/-! ### Claim theorems -/

/-- Claim C1, counterexample: wsSendMedia does not pad.  Sending a 170-byte
buffer produces a media event whose decoded payload is the 10-byte trailing
slice, so not every outbound media event carries exactly 160 bytes. -/
theorem C1_counterexample :
    ∃ f ∈ wsSendMediaPayloads ("SX123") (List.replicate 170 7), f.length ≠ 160 := by
  refine ⟨List.replicate 10 7, ?_, by decide⟩
  decide

/-- Claim C1 (amended): the frame-scheduler path (toFrames feeding the sender's
queue) produces only exactly-160-byte frames, silence-padding the trailing
frame; the wsSendMedia path transmits the buffer's bytes as unpadded
consecutive slices, so when the buffer length is not a multiple of 160 one
transmitted payload has exactly the remainder's length. -/
theorem C1_amended_frame_sizes (b : List Nat) (sid : String) (hsid : sid ≠ ("")) :
    (∀ f ∈ toFrames b, f.length = 160)
    ∧ (wsSendMediaPayloads sid b).flatten = b
    ∧ (b.length % 160 ≠ 0 →
        ∃ f ∈ wsSendMediaPayloads sid b, f.length = b.length % 160) := by
  refine ⟨?_, ?_, ?_⟩
  · intro f hf
    have h1 : (padToFrame b).length % 160 = 0 := by
      rw [padToFrame_length]
      omega
    exact chunkGo_frame_lengths _ _ le_rfl h1 f hf
  · simp only [wsSendMediaPayloads, if_neg hsid]
    exact chunkGo_join _ _ le_rfl
  · intro hm
    simp only [wsSendMediaPayloads, if_neg hsid]
    exact chunkGo_short_trailing _ _ le_rfl hm

/-- Claim C1, witness of the amended statement at concrete inputs. -/
theorem C1_amended_witness :
    (List.replicate 160 (5 : Nat)).length = 160
    ∧ (wsSendMediaPayloads ("SX1") (List.replicate 170 5)).flatten = List.replicate 170 5
    ∧ ∃ f ∈ wsSendMediaPayloads ("SX1") (List.replicate 170 5),
        f.length = (List.replicate 170 (5 : Nat)).length % 160 := by
  have h := C1_amended_frame_sizes (List.replicate 170 5) ("SX1") (by decide)
  exact ⟨h.1 (List.replicate 160 5) (by decide), h.2.1, h.2.2 (by decide)⟩

/-- Claim C2: when ElevenLabs is configured and the primary request fails (a
request error, non-2xx status, or a JSON content type), ttsSynthesize invokes
the secondary provider path exactly once; when the secondary also fails the
result is the zero-length buffer; and a zero-length buffer leads to zero
frames being sent (both through the speak guard and because slicing an empty
buffer yields no media events). -/
theorem C2_tts_fallback_once (env : TtsEnv) (prim : PrimaryOutcome) (sec : SecondaryOutcome)
    (sid : String) (hkey : env.hasElevenKey = true) (hvoice : env.hasVoiceId = true)
    (hfail : primaryFails prim = true) :
    (ttsSynthesize env prim sec).2 = 1
    ∧ (secondaryFails env.hasOpenAIKey sec = true → (ttsSynthesize env prim sec).1 = [])
    ∧ speakFramesSent sid [] = 0
    ∧ wsSendMediaPayloads sid [] = [] := by
  have hcond : ¬(env.hasElevenKey = false ∨ env.hasVoiceId = false) := by
    simp [hkey, hvoice]
  refine ⟨?_, ?_, ?_, ?_⟩
  · cases prim with
    | ok a => simp [primaryFails] at hfail
    | requestError => simp [ttsSynthesize, hcond]
    | jsonContentType => simp [ttsSynthesize, hcond]
  · intro hsec
    have hAI : ttsOpenAI env.hasOpenAIKey sec = [] := by
      cases hk : env.hasOpenAIKey with
      | false => simp [ttsOpenAI]
      | true =>
        cases sec with
        | requestError => simp [ttsOpenAI]
        | ok p => simp [secondaryFails, hk] at hsec
    cases prim with
    | ok a => simp [primaryFails] at hfail
    | requestError => simp [ttsSynthesize, hcond, hAI]
    | jsonContentType => simp [ttsSynthesize, hcond, hAI]
  · simp [speakFramesSent]
  · simp only [wsSendMediaPayloads]
    split
    · rfl
    · rfl

/-- Claim C2, witness: with both providers failing concretely, the fallback is
invoked exactly once and the result is the empty buffer. -/
theorem C2_witness :
    (ttsSynthesize (TtsEnv.mk true true true) PrimaryOutcome.requestError
        SecondaryOutcome.requestError).2 = 1
    ∧ (ttsSynthesize (TtsEnv.mk true true true) PrimaryOutcome.requestError
        SecondaryOutcome.requestError).1 = [] := by
  have h := C2_tts_fallback_once (TtsEnv.mk true true true) PrimaryOutcome.requestError
    SecondaryOutcome.requestError ("SX") rfl rfl rfl
  exact ⟨h.1, h.2.1 rfl⟩

/-- Claim C3, counterexample: the server.js linear-to-companded encoder
pcm16ToUlaw maps the linear sample 0 to 0xF7, not to the designated silence
byte 0xFF (its exponent-0 mantissa shift is 4 rather than 3). -/
theorem C3_counterexample : pcm16ToUlawSample 0 ≠ ULawSilence := by decide

/-- Claim C3 (amended): encodeLinearToMuLaw maps the linear sample 0 exactly to
the designated silence byte 0xFF used for padding, while the server.js variant
pcm16ToUlaw maps 0 to 0xF7. -/
theorem C3_amended_zero_encoding :
    encodeLinearToMuLaw 0 = ULawSilence ∧ pcm16ToUlawSample 0 = 0xF7 := by decide

/-- Claim C4: only the first enqueue of a session injects priming silence.
With the primed flag clear, enqueue pushes exactly three frames of pure
silence (within the claimed two-to-three range) ahead of the real audio's
frames; with the flag set it pushes only the audio's frames; enqueue always
leaves the flag set, so an immediately following enqueue injects nothing; and
clear resets the flag and empties the queue. -/
theorem C4_priming_once (st : SenderState) (b b2 : List Nat) :
    (st.primed = false →
      (enqueue st b).q = st.q ++ toFrames (buildSilence 3) ++ toFrames b
      ∧ (toFrames (buildSilence 3)).length = 3
      ∧ (∀ f ∈ toFrames (buildSilence 3), f = List.replicate 160 ULawSilence))
    ∧ (st.primed = true → (enqueue st b).q = st.q ++ toFrames b)
    ∧ (enqueue st b).primed = true
    ∧ (enqueue (enqueue st b) b2).q = (enqueue st b).q ++ toFrames b2
    ∧ (clear st).primed = false
    ∧ (clear st).q = [] := by
  refine ⟨?_, ?_, ?_, ?_, rfl, rfl⟩
  · intro hp
    refine ⟨?_, by decide, by decide⟩
    simp [enqueue, hp, List.append_assoc]
  · intro hp
    simp [enqueue, hp]
  · by_cases hp : st.primed <;> simp [enqueue, hp]
  · by_cases hp : st.primed <;> simp [enqueue, hp, List.append_assoc]

/-- Claim C4, witness: from the fresh sender state, the first enqueue injects
the three silence frames ahead of the audio and sets the primed flag. -/
theorem C4_witness :
    (enqueue initSender [1]).q = initSender.q ++ toFrames (buildSilence 3) ++ toFrames [1]
    ∧ (enqueue initSender [1]).primed = true := by
  have h := C4_priming_once initSender [1] []
  exact ⟨(h.1 rfl).1, h.2.2.1⟩

/-- Claim C5: on a reasoning-service error, or whenever the loose JSON parse of
the reply fails, llmExtract returns the default-populated record: caller_name,
suburb, job_type and preferred_time empty, urgency this_week, and call_summary
the raw transcript truncated to at most 800 characters. -/
theorem C5_extract_default_on_failure (text : String) (outcome : LlmOutcome)
    (h : outcome = LlmOutcome.requestError
      ∨ ∃ c, outcome = LlmOutcome.reply c ∧ parseJsonLoose (rawContent c) = none) :
    llmExtract text outcome = defaultLead text
    ∧ Json.getField (defaultLead text) ("caller_name") = some (Json.str (""))
    ∧ Json.getField (defaultLead text) ("suburb") = some (Json.str (""))
    ∧ Json.getField (defaultLead text) ("job_type") = some (Json.str (""))
    ∧ Json.getField (defaultLead text) ("preferred_time") = some (Json.str (""))
    ∧ Json.getField (defaultLead text) ("urgency") = some (Json.str ("this_week"))
    ∧ Json.getField (defaultLead text) ("call_summary") = some (Json.str (jsSlice text 800))
    ∧ (jsSlice text 800).length ≤ 800 := by
  refine ⟨?_, rfl, rfl, rfl, rfl, rfl, rfl, ?_⟩
  · rcases h with h1 | ⟨c, hc, hp⟩
    · subst h1
      rfl
    · subst hc
      simp [llmExtract, hp]
  · have he : (jsSlice text 800).length = (text.toList.take 800).length := rfl
    rw [he]
    simp only [List.length_take]
    omega

/-- Claim C5, witness: a concrete service error yields the default record. -/
theorem C5_witness :
    llmExtract ("hello caller") LlmOutcome.requestError = defaultLead ("hello caller") :=
  (C5_extract_default_on_failure ("hello caller") LlmOutcome.requestError (Or.inl rfl)).1

/-- Claim C6: padToFrame returns a buffer whose length is a multiple of 160
that starts with the input unchanged and whose padding bytes all equal the
silence value, and toFrames yields the ceiling of length-over-160 frames, each
exactly 160 bytes, which concatenate back to the padded buffer (so the last
frame ends in the silence padding). -/
theorem C6_padToFrame_toFrames_shape (b : List Nat) :
    (padToFrame b).length % 160 = 0
    ∧ (padToFrame b).take b.length = b
    ∧ (padToFrame b).drop b.length =
        List.replicate ((padToFrame b).length - b.length) ULawSilence
    ∧ (toFrames b).length = (b.length + 159) / 160
    ∧ (∀ f ∈ toFrames b, f.length = 160)
    ∧ (toFrames b).flatten = padToFrame b := by
  have hmod : (padToFrame b).length % 160 = 0 := by
    rw [padToFrame_length]
    omega
  refine ⟨hmod, ?_, ?_, ?_, ?_, ?_⟩
  · simp only [padToFrame, FRAME_BYTES]
    split
    · exact List.take_length b
    · exact List.take_left b _
  · simp only [padToFrame, FRAME_BYTES]
    split
    · simp
    · rw [List.drop_left]
      simp
  · show (chunkGo (padToFrame b).length (padToFrame b)).length = (b.length + 159) / 160
    rw [chunkGo_length _ _ le_rfl, padToFrame_length]
    omega
  · intro f hf
    exact chunkGo_frame_lengths _ _ le_rfl hmod f hf
  · exact chunkGo_join _ _ le_rfl

/-- Claim C6, witness: the single frame produced from a one-byte buffer has
length exactly 160. -/
theorem C6_witness : ((7 : Nat) :: List.replicate 159 ULawSilence).length = 160 := by
  have h := C6_padToFrame_toFrames_shape [7]
  exact h.2.2.2.2.1 ((7 : Nat) :: List.replicate 159 ULawSilence) (by decide)

/-- Claim C7, counterexample: encodeLinearToMuLaw performs no internal
clipping; at the 16-bit sample -32768 its output differs from the output on
the value clipped to the encoder range used by pcm16ToUlaw (-32635). -/
theorem C7_counterexample :
    encodeLinearToMuLaw (-32768) ≠ encodeLinearToMuLaw (clip32635 (-32768)) := by decide

/-- Clipping twice equals clipping once. -/
theorem clip32635_idem (x : Int) : clip32635 (clip32635 x) = clip32635 x := by
  simp only [clip32635]
  split_ifs <;> omega

/-- Claim C7 (amended): pcm16ToUlaw clips its input to the representable range
(plus or minus 32635) before encoding, so for every input encoding the input
equals encoding the clipped input, and both encoders are deterministic total
functions whose result is a single byte; encodeLinearToMuLaw itself performs
no clipping (its counterexample is recorded separately). -/
theorem C7_amended_clipping (x : Int) :
    pcm16ToUlawSample x = pcm16ToUlawSample (clip32635 x)
    ∧ pcm16ToUlawSample x < 256
    ∧ encodeLinearToMuLaw x < 256 := by
  refine ⟨?_, ?_, ?_⟩
  · simp only [pcm16ToUlawSample, clip32635_idem]
  · simp only [pcm16ToUlawSample, jsNotByte]
    omega
  · simp only [encodeLinearToMuLaw, jsNotByte]
    omega

/-- Claim C8, counterexample: the container stripper is not idempotent on every
input; on a container whose data payload is itself a container, a second
application strips a second layer. -/
theorem C8_counterexample :
    stripContainer (stripContainer nestedWavExample) ≠ stripContainer nestedWavExample := by
  decide

/-- Claim C8 (amended): stripContainer returns input with no recognized
signature unchanged, and is idempotent whenever the result of one application
does not itself begin with the container signature — which covers raw inputs
and ordinary container-wrapped audio, but not containers nested inside
containers. -/
theorem C8_amended_strip_idempotent (b : List Nat)
    (h : hasRiffHeader (stripContainer b) = false) :
    stripContainer (stripContainer b) = stripContainer b
    ∧ (hasRiffHeader b = false → stripContainer b = b) :=
  ⟨stripContainer_no_header _ h, fun hb => stripContainer_no_header _ hb⟩

/-- Claim C8, witness: a raw three-byte buffer is unchanged and fixed under a
second application. -/
theorem C8_witness :
    stripContainer (stripContainer [1, 2, 3]) = stripContainer [1, 2, 3]
    ∧ stripContainer [1, 2, 3] = [1, 2, 3] := by
  have h := C8_amended_strip_idempotent [1, 2, 3] (by decide)
  exact ⟨h.1, h.2 (by decide)⟩

/-- Claim C9: an inbound websocket payload that does not parse as JSON is
silently dropped — the handler returns the session state unchanged (stream
token, caller identity, transcript log, counters and Deepgram effects all
intact) and the remaining messages are processed exactly as if the malformed
one had never arrived. -/
theorem C9_malformed_inbound_dropped (dgOpen : Bool) (st : SessionState) (raw : String)
    (rest : List String) (h : jsonParse raw = none) :
    handleRaw dgOpen st raw = st
    ∧ processMessages dgOpen st (raw :: rest) = processMessages dgOpen st rest := by
  have h1 : handleRaw dgOpen st raw = st := by
    simp [handleRaw, h]
  exact ⟨h1, by simp [processMessages, h1]⟩

/-- Claim C9, witness: a concrete unparseable payload leaves the fresh session
unchanged. -/
theorem C9_witness :
    handleRaw true initialSession ("garbage") = initialSession
    ∧ processMessages true initialSession [("garbage")] =
        processMessages true initialSession [] :=
  C9_malformed_inbound_dropped true initialSession ("garbage") [] rfl

/-- Claim C10: the default-populated fallback applies only when no JSON object
can be located and parsed in the reply; whenever the loose parse succeeds the
parsed object is returned as-is — no default urgency, no empty-string fields,
no transcript summary are added. -/
theorem C10_parsed_object_returned (text c : String) (j : Json)
    (h : parseJsonLoose (rawContent (some c)) = some j) :
    llmExtract text (LlmOutcome.reply (some c)) = j := by
  simp [llmExtract, h]

/-- Claim C10, witness: a reply consisting of exactly the two-character empty
object text parses to the empty object, which is returned unchanged. -/
theorem C10_witness :
    llmExtract ("any transcript")
        (LlmOutcome.reply (some (String.mk [lbraceChar, rbraceChar]))) = Json.obj [] :=
  C10_parsed_object_returned ("any transcript") (String.mk [lbraceChar, rbraceChar])
    (Json.obj []) rfl

end FirstRing
